import Mathlib

/-
Verification of the mysocks5 SOCKS5 server core (package mysocks5,
file mysocks5.go) against its design specification.

The byte stream of a client connection is modelled as a `ConnState`:
a list of bytes still to be read from the client, a trace of observable
output events (protocol writes, SOCKS5 replies, relayed bytes, the
request handed to the request handler), a per-write-call failure
schedule (modelling transport write errors), the optional TCP remote
address of the connection, and a closed flag.  Reads fail (with an I/O
error) exactly when the input list is exhausted, mirroring a short read
or transport error; writes fail according to the schedule.

Functions present in mysocks5.go (`ServeConn`, `needNoAuth`, `New`) are
translated directly.  Functions of this repository that mysocks5.go
calls but whose files are not in the shown sources (`NewRequest`,
`sendReply`, `handleRequest`, and the `AddrSpec` type) are modelled
from the specification; each such definition carries a doc comment
saying so.
-/

namespace MySocks

/-- socks5Version constant from mysocks5.go: the supported protocol version 5. -/
def socks5Version : Nat := 5

/-- noAuth constant from mysocks5.go: the no-authentication method id 0. -/
def noAuth : Nat := 0

/-- Reply code success (0x00), from the spec reply taxonomy. -/
def successReply : Nat := 0

/-- Reply code general failure (0x01). -/
def genFailure : Nat := 1

/-- Reply code network unreachable (0x03). -/
def networkUnreachable : Nat := 3

/-- Reply code host unreachable (0x04). -/
def hostUnreachable : Nat := 4

/-- Reply code connection refused (0x05). -/
def connectionRefused : Nat := 5

/-- Reply code command not supported (0x07). -/
def commandNotSupported : Nat := 7

/-- Reply code address type not supported (0x08), used by ServeConn. -/
def addrTypeNotSupported : Nat := 8

/-- CONNECT command byte (0x01). -/
def connectCommand : Nat := 1

/-- Errors produced by the server code.  `ioErr` stands for any underlying
transport read or write error (including short reads); the wrapped
constructors model the `fmt.Errorf` wrappings in `ServeConn`;
`unrecognizedAddrType` is the sentinel error value compared by pointer
equality in `ServeConn`. -/
inductive GoErr where
  | ioErr : GoErr
  | unsupportedVersion : Nat → GoErr
  | protocolVersionMismatch : GoErr
  | unrecognizedAddrType : GoErr
  | unsupportedCommand : GoErr
  | dialFailure : GoErr
  | failedToSendReply : GoErr → GoErr
  | failedToReadDest : GoErr → GoErr
  | failedToHandleRequest : GoErr → GoErr
  deriving DecidableEq, Repr

/-- Modelled from the spec: the AddressSpec record (destination address +
port, holding either an IP byte string or a domain name).  Only the
fields used by the shown code (`IP`, `Port`) and the spec (`FQDN`) are
modelled; an IPv4 address is a 4-byte `ip`, an IPv6 address a 16-byte
`ip`, a domain name a nonempty `fqdn`. -/
structure AddrSpec where
  ip : List Nat := []
  fqdn : List Nat := []
  port : Nat := 0
  deriving DecidableEq, Repr

/-- Modelled from the spec: a decoded Request (protocol version, command
byte, destination address, and the optional client remote-address
metadata attached by ServeConn). -/
structure Request where
  version : Nat
  command : Nat
  destAddr : AddrSpec
  remoteAddr : Option AddrSpec := none
  deriving DecidableEq, Repr

/-- Observable output events of a session: a raw protocol write to the
client (the 2-byte method selection), a SOCKS5 Reply message written to
the client (code and encoded bytes), bytes relayed in either direction
after a successful CONNECT, and the hand-off of a decoded request to
the request handler. -/
inductive Ev where
  | write : List Nat → Ev
  | reply : Nat → List Nat → Ev
  | relayToUpstream : List Nat → Ev
  | relayToClient : List Nat → Ev
  | handleReq : Request → Ev
  deriving DecidableEq, Repr

/-- State of one client connection: bytes remaining to be read from the
client, the trace of output events so far, the remote address when the
connection is TCP (`none` models a non-TCP `net.Conn`, whose
`RemoteAddr` is not a `*net.TCPAddr`), the schedule of write-call
outcomes (`true` = this write call fails; an exhausted schedule means
all further writes succeed), and whether the connection is closed. -/
structure ConnState where
  input : List Nat
  trace : List Ev
  remote : Option (List Nat × Nat) := none
  writeFails : List Bool := []
  closed : Bool := false
  deriving DecidableEq, Repr

/-- Reading one byte (a 1-byte `Read` on the buffered reader): succeeds
with the next input byte, or fails with an I/O error when the stream is
exhausted. -/
def readByte (c : ConnState) : Except GoErr Nat × ConnState :=
  match c.input with
  | [] => (.error .ioErr, c)
  | b :: rest => (.ok b, { c with input := rest })

/-- io.ReadAtLeast with a buffer of length `n`: reads exactly `n` bytes
or fails with an I/O error (modelling ErrUnexpectedEOF / transport
errors on a short stream). -/
def readN : Nat → ConnState → Except GoErr (List Nat) × ConnState
  | 0, c => (.ok [], c)
  | n + 1, c =>
    match readByte c with
    | (.error e, c1) => (.error e, c1)
    | (.ok b, c1) =>
      match readN n c1 with
      | (.error e, c2) => (.error e, c2)
      | (.ok bs, c2) => (.ok (b :: bs), c2)

/-- Whether the next write call succeeds under the failure schedule. -/
def firstWriteOk : List Bool → Bool
  | true :: _ => false
  | _ => true

/-- One write call to the client stream: on success the event is
appended to the trace; on failure nothing is written and an I/O error
is returned.  Either way the head of the failure schedule is consumed. -/
def doWrite (ev : Ev) (c : ConnState) : Except GoErr Unit × ConnState :=
  if firstWriteOk c.writeFails then
    (.ok (), { c with writeFails := c.writeFails.tail, trace := c.trace ++ [ev] })
  else
    (.error .ioErr, { c with writeFails := c.writeFails.tail })

/-- needNoAuth from mysocks5.go: read the 1-byte method count, read
exactly that many method bytes (io.ReadAtLeast), then write the 2-byte
response [socks5Version, noAuth] to the client. -/
def needNoAuth (c : ConnState) : Except GoErr Unit × ConnState :=
  match readByte c with
  | (.error e, c1) => (.error e, c1)
  | (.ok numMethods, c1) =>
    match readN numMethods c1 with
    | (.error e, c2) => (.error e, c2)
    | (.ok _methods, c2) => doWrite (.write [socks5Version, noAuth]) c2

/-- Splitting a list at `n`: `.ok` with the first `n` bytes and the rest
when at least `n` bytes remain, `.error` (I/O failure / short read)
otherwise.  Used by the request parser for fixed-size address bodies. -/
def takeExact (n : Nat) (l : List Nat) : Except GoErr (List Nat × List Nat) :=
  if n ≤ l.length then .ok (l.take n, l.drop n) else .error .ioErr

/-- Modelled from the spec: decode the 2-byte big-endian port that
terminates every address specification. -/
def parsePort : List Nat → Except GoErr (Nat × List Nat)
  | hi :: lo :: rest => .ok (hi * 256 + lo, rest)
  | _ => .error .ioErr

/-- Modelled from the spec: decode an address specification.  Read the
address-type byte; IPv4 (1) reads exactly 4 address bytes, IPv6 (4)
exactly 16, domain (3) a length byte then exactly that many name bytes;
any other address-type byte fails with `unrecognizedAddrType`.  Always
followed by the 2-byte big-endian port. -/
def parseAddrSpec : List Nat → Except GoErr (AddrSpec × List Nat)
  | [] => .error .ioErr
  | atyp :: rest =>
    if atyp = 1 then
      match takeExact 4 rest with
      | .error e => .error e
      | .ok (ip, r1) =>
        match parsePort r1 with
        | .error e => .error e
        | .ok (p, r2) => .ok ({ ip := ip, fqdn := [], port := p }, r2)
    else if atyp = 4 then
      match takeExact 16 rest with
      | .error e => .error e
      | .ok (ip, r1) =>
        match parsePort r1 with
        | .error e => .error e
        | .ok (p, r2) => .ok ({ ip := ip, fqdn := [], port := p }, r2)
    else if atyp = 3 then
      match rest with
      | [] => .error .ioErr
      | len :: r1 =>
        match takeExact len r1 with
        | .error e => .error e
        | .ok (name, r2) =>
          match parsePort r2 with
          | .error e => .error e
          | .ok (p, r3) => .ok ({ ip := [], fqdn := name, port := p }, r3)
    else .error .unrecognizedAddrType

/-- Modelled from the spec: the pure part of `NewRequest` (whose file is
not among the shown sources) as a parser over the remaining input.
Read the version byte (must equal the supported protocol version, else
a version-mismatch failure), the command byte (CONNECT=1, BIND=2,
UDP-ASSOCIATE=3; any other value fails with `unsupportedCommand`), one
reserved byte (ignored), then the address specification.  Returns the
decoded Request and the unconsumed input. -/
def parseRequest : List Nat → Except GoErr (Request × List Nat)
  | [] => .error .ioErr
  | v :: rest =>
    if v ≠ socks5Version then .error .protocolVersionMismatch
    else
      match rest with
      | [] => .error .ioErr
      | cmd :: rest1 =>
        if cmd = 1 ∨ cmd = 2 ∨ cmd = 3 then
          match rest1 with
          | [] => .error .ioErr
          | _rsv :: rest2 =>
            match parseAddrSpec rest2 with
            | .error e => .error e
            | .ok (d, r) =>
              .ok ({ version := socks5Version, command := cmd,
                     destAddr := d, remoteAddr := none }, r)
        else .error .unsupportedCommand

/-- Modelled from the spec: NewRequest reads the request frame from the
connection.  On success the unconsumed bytes stay in the stream; on a
decode failure the session is aborted, so the leftover stream contents
are irrelevant and are dropped. -/
def NewRequest (c : ConnState) : Except GoErr Request × ConnState :=
  match parseRequest c.input with
  | .error e => (.error e, { c with input := [] })
  | .ok (req, rest) => (.ok req, { c with input := rest })

/-- Modelled from the spec: the encoded bytes of a Reply message:
version byte, reply code, reserved 0x00, address-type byte, address
body, 2-byte big-endian port.  When no bound address is meaningful
(`none`, as in failure replies) the zero-valued IPv4 address and port 0
are used. -/
def replyBytes (code : Nat) (addr : Option AddrSpec) : List Nat :=
  match addr with
  | none => [socks5Version, code, 0, 1, 0, 0, 0, 0, 0, 0]
  | some a =>
    if a.fqdn ≠ [] then
      [socks5Version, code, 0, 3, a.fqdn.length] ++ a.fqdn ++
        [a.port / 256 % 256, a.port % 256]
    else if a.ip.length = 16 then
      [socks5Version, code, 0, 4] ++ a.ip ++ [a.port / 256 % 256, a.port % 256]
    else
      [socks5Version, code, 0, 1] ++ a.ip ++ [a.port / 256 % 256, a.port % 256]

/-- Modelled from the spec: sendReply encodes a Reply message and writes
it to the client in one write call. -/
def sendReply (code : Nat) (addr : Option AddrSpec) (c : ConnState) :
    Except GoErr Unit × ConnState :=
  doWrite (.reply code (replyBytes code addr)) c

/-- Dial outcome for the CONNECT command, supplied by the environment:
either an upstream connection with its local bound address, or one of
the dial failure classes of the spec. -/
inductive DialResult where
  | ok : AddrSpec → DialResult
  | connRefused : DialResult
  | netUnreachable : DialResult
  | hostUnreachable : DialResult
  | otherFailure : DialResult
  deriving DecidableEq, Repr

/-- The environment of a session: the outcome of dialing the requested
destination and the bytes the upstream will send to the client during
relaying. -/
structure World where
  dial : DialResult
  upstreamData : List Nat
  deriving DecidableEq, Repr

/-- The reply code for a failed dial, per the spec classification
(connection-refused 5, network-unreachable 3, host-unreachable 4,
general failure 1 otherwise). -/
def dialErrorCode : DialResult → Nat
  | .connRefused => connectionRefused
  | .netUnreachable => networkUnreachable
  | .hostUnreachable => hostUnreachable
  | _ => genFailure

/-- Modelled from the spec: handleRequest (whose file is not among the
shown sources).  For CONNECT: dial the destination; on success send a
success reply carrying the bound address and then relay bytes in both
directions (the client's remaining input to the upstream, the
upstream's data to the client); on dial failure send the classified
failure reply and fail without relaying.  For BIND and UDP-ASSOCIATE:
send a command-not-supported reply and fail.  The hand-off of the
request is recorded as a trace event on entry. -/
def handleRequest (w : World) (req : Request) (c : ConnState) :
    Except GoErr Unit × ConnState :=
  let c0 : ConnState := { c with trace := c.trace ++ [.handleReq req] }
  if req.command = connectCommand then
    match w.dial with
    | .ok bound =>
      match sendReply successReply (some bound) c0 with
      | (.error e, c1) => (.error (.failedToSendReply e), c1)
      | (.ok _, c1) =>
        (.ok (),
          { c1 with
            input := [],
            trace := c1.trace ++ [.relayToUpstream c1.input, .relayToClient w.upstreamData] })
    | d =>
      match sendReply (dialErrorCode d) none c0 with
      | (.error e, c1) => (.error (.failedToSendReply e), c1)
      | (.ok _, c1) => (.error .dialFailure, c1)
  else
    match sendReply commandNotSupported none c0 with
    | (.error e, c1) => (.error (.failedToSendReply e), c1)
    | (.ok _, c1) => (.error .unsupportedCommand, c1)

/-- The RemoteAddr attachment in ServeConn: when the connection's remote
address is a TCP address, store its IP and port in the request;
otherwise (the type assertion to TCPAddr fails) leave the request
unchanged. -/
def attachRemote (ra : Option (List Nat × Nat)) (req : Request) : Request :=
  match ra with
  | some (ip, p) => { req with remoteAddr := some { ip := ip, fqdn := [], port := p } }
  | none => req

/-- The body of ServeConn from mysocks5.go, before the deferred Close:
read the version byte (failing the session on a read error), check it
against the supported version (failing with an unsupported-version
error otherwise), run the handshake negotiator, decode the request
(on `unrecognizedAddrType` attempt an address-type-not-supported reply,
whose own failure is what is then reported; every decode failure is
reported as a failed session), attach the TCP remote address, then
handle the request. -/
def serveConnBody (w : World) (c : ConnState) : Except GoErr Unit × ConnState :=
  match readByte c with
  | (.error e, c1) => (.error e, c1)
  | (.ok v, c1) =>
    if v ≠ socks5Version then (.error (.unsupportedVersion v), c1)
    else
      match needNoAuth c1 with
      | (.error e, c2) => (.error e, c2)
      | (.ok _, c2) =>
        match NewRequest c2 with
        | (.error e, c3) =>
          if e = .unrecognizedAddrType then
            match sendReply addrTypeNotSupported none c3 with
            | (.error e2, c4) => (.error (.failedToSendReply e2), c4)
            | (.ok _, c4) => (.error (.failedToReadDest e), c4)
          else (.error (.failedToReadDest e), c3)
        | (.ok req, c3) =>
          match handleRequest w (attachRemote c3.remote req) c3 with
          | (.error e, c4) => (.error (.failedToHandleRequest e), c4)
          | (.ok _, c4) => (.ok (), c4)

/-- ServeConn from mysocks5.go: the session body wrapped by the deferred
`conn.Close()`, which closes the client connection on every exit path. -/
def serveConn (w : World) (c : ConnState) : Except GoErr Unit × ConnState :=
  ((serveConnBody w c).1, { (serveConnBody w c).2 with closed := true })

/-- A logger value: the default (log.New(os.Stdout, ...)) or a custom
logger supplied by the caller. -/
inductive Logger where
  | stdoutDefault : Logger
  | custom : Nat → Logger
  deriving DecidableEq, Repr

/-- Config from mysocks5.go: the bind IP and an optional logger
(`none` models a nil *log.Logger). -/
structure Config where
  bindIP : List Nat := []
  logger : Option Logger := none
  deriving DecidableEq, Repr

/-- Server from mysocks5.go: holds the (shared, pointed-to) Config. -/
structure Server where
  config : Config
  deriving DecidableEq, Repr

/-- New from mysocks5.go: installs the default stdout logger into the
caller's Config when its logger is nil, then returns the server (whose
config field aliases the caller's Config) and a nil error.  The second
component of the result is the caller's Config after the in-place
mutation; the third is the returned error (`none` = nil). -/
def New (conf : Config) : Server × Config × Option GoErr :=
  let conf2 : Config :=
    match conf.logger with
    | none => { conf with logger := some .stdoutDefault }
    | some _ => conf
  ({ config := conf2 }, conf2, none)

/-- The codes of the Reply messages in a trace, in order. -/
def replyCodes : List Ev → List Nat
  | [] => []
  | .reply code _ :: t => code :: replyCodes t
  | _ :: t => replyCodes t

/-- All relayed bytes (both directions) in a trace. -/
def relayedBytes : List Ev → List Nat
  | [] => []
  | .relayToUpstream bs :: t => bs ++ relayedBytes t
  | .relayToClient bs :: t => bs ++ relayedBytes t
  | _ :: t => relayedBytes t

/-- Whether no relay event occurs before the first success Reply. -/
def noRelayBeforeSuccessReply : List Ev → Bool
  | [] => true
  | .reply 0 _ :: _ => true
  | .relayToUpstream _ :: _ => false
  | .relayToClient _ :: _ => false
  | _ :: t => noRelayBeforeSuccessReply t

/-- The requests handed to the request handler, in order. -/
def handledRequests : List Ev → List Request
  | [] => []
  | .handleReq r :: t => r :: handledRequests t
  | _ :: t => handledRequests t

/-- Whether the handshake phase of a session will succeed: the first
byte is the supported version, the method count is covered by the
remaining input, and the negotiator's write call succeeds. -/
def handshakeOk (c : ConnState) : Bool :=
  match c.input with
  | v :: n :: rest => v == socks5Version && n ≤ rest.length && firstWriteOk c.writeFails
  | _ => false

/-- Reading `n` bytes succeeds and consumes exactly `n` bytes when the
stream holds at least `n`. -/
theorem readN_ok (n : Nat) (inp : List Nat) (tr : List Ev) (rm : Option (List Nat × Nat))
    (wf : List Bool) (cl : Bool) (h : n ≤ inp.length) :
    readN n ⟨inp, tr, rm, wf, cl⟩ = (.ok (inp.take n), ⟨inp.drop n, tr, rm, wf, cl⟩) := by
  induction n generalizing inp with
  | zero => simp [readN]
  | succ n ih =>
    match inp with
    | [] => simp at h
    | b :: rest =>
      have hr : n ≤ rest.length := by simpa using h
      simp [readN, readByte, ih rest hr]

/-- Reading `n` bytes fails with an I/O error when the stream holds
fewer than `n`, and leaves the stream exhausted. -/
theorem readN_err (n : Nat) (inp : List Nat) (tr : List Ev) (rm : Option (List Nat × Nat))
    (wf : List Bool) (cl : Bool) (h : inp.length < n) :
    readN n ⟨inp, tr, rm, wf, cl⟩ = (.error .ioErr, ⟨[], tr, rm, wf, cl⟩) := by
  induction n generalizing inp with
  | zero => exact absurd h (Nat.not_lt_zero _)
  | succ n ih =>
    match inp with
    | [] => simp [readN, readByte]
    | b :: rest =>
      have hr : rest.length < n := by simpa using h
      simp [readN, readByte, ih rest hr]

/-- On a well-formed greeting body (count byte `n` followed by at least
`n` method bytes) with a working write, the negotiator consumes exactly
the count byte and the `n` method bytes and appends exactly one write
event, the 2-byte response. -/
theorem needNoAuth_ok (n : Nat) (ms rest : List Nat) (tr : List Ev)
    (rm : Option (List Nat × Nat)) (wf : List Bool) (cl : Bool)
    (hms : ms.length = n) (hw : firstWriteOk wf = true) :
    needNoAuth ⟨n :: (ms ++ rest), tr, rm, wf, cl⟩ =
      (.ok (), ⟨rest, tr ++ [.write [socks5Version, noAuth]], rm, wf.tail, cl⟩) := by
  have hlen : n ≤ (ms ++ rest).length := by simp [← hms]
  have hdrop : (ms ++ rest).drop n = rest := by
    rw [← hms]; exact List.drop_left ms rest
  simp [needNoAuth, readByte, readN_ok n (ms ++ rest) tr rm wf cl hlen, hdrop, doWrite, hw]

/-- On an empty stream the negotiator fails at the count byte and
changes nothing. -/
theorem needNoAuth_errNil (tr : List Ev) (rm : Option (List Nat × Nat))
    (wf : List Bool) (cl : Bool) :
    needNoAuth ⟨[], tr, rm, wf, cl⟩ = (.error .ioErr, ⟨[], tr, rm, wf, cl⟩) := rfl

/-- When fewer than `n` method bytes follow the count byte the
negotiator fails with an I/O error and writes nothing. -/
theorem needNoAuth_errShort (n : Nat) (rest : List Nat) (tr : List Ev)
    (rm : Option (List Nat × Nat)) (wf : List Bool) (cl : Bool) (h : rest.length < n) :
    needNoAuth ⟨n :: rest, tr, rm, wf, cl⟩ = (.error .ioErr, ⟨[], tr, rm, wf, cl⟩) := by
  simp [needNoAuth, readByte, readN_err n rest tr rm wf cl h]

/-- When the reads succeed but the write call fails, the negotiator
returns the write error and nothing is written. -/
theorem needNoAuth_errWrite (n : Nat) (ms rest : List Nat) (tr : List Ev)
    (rm : Option (List Nat × Nat)) (wf : List Bool) (cl : Bool)
    (hms : ms.length = n) (hw : firstWriteOk wf = false) :
    needNoAuth ⟨n :: (ms ++ rest), tr, rm, wf, cl⟩ =
      (.error .ioErr, ⟨rest, tr, rm, wf.tail, cl⟩) := by
  have hlen : n ≤ (ms ++ rest).length := by simp [← hms]
  have hdrop : (ms ++ rest).drop n = rest := by
    rw [← hms]; exact List.drop_left ms rest
  simp [needNoAuth, readByte, readN_ok n (ms ++ rest) tr rm wf cl hlen, hdrop, doWrite, hw]

/-- A session whose stream is empty fails at the version byte: no
output, connection closed. -/
theorem serveConn_nilInput (w : World) (tr : List Ev) (rm : Option (List Nat × Nat))
    (wf : List Bool) (cl : Bool) :
    serveConn w ⟨[], tr, rm, wf, cl⟩ = (.error .ioErr, ⟨[], tr, rm, wf, true⟩) := rfl

/-- A session whose first byte is not the supported version fails with
an unsupported-version error: no output, connection closed. -/
theorem serveConn_badVersion (w : World) (v : Nat) (rest : List Nat) (tr : List Ev)
    (rm : Option (List Nat × Nat)) (wf : List Bool) (cl : Bool) (h : v ≠ socks5Version) :
    serveConn w ⟨v :: rest, tr, rm, wf, cl⟩ =
      (.error (.unsupportedVersion v), ⟨rest, tr, rm, wf, true⟩) := by
  simp [serveConn, serveConnBody, readByte, h]

/-- A session that ends right after the version byte fails in the
negotiator's first read: no output, connection closed. -/
theorem serveConn_greetNil (w : World) (tr : List Ev) (rm : Option (List Nat × Nat))
    (wf : List Bool) (cl : Bool) :
    serveConn w ⟨[socks5Version], tr, rm, wf, cl⟩ = (.error .ioErr, ⟨[], tr, rm, wf, true⟩) := rfl

/-- A session whose greeting promises more method bytes than the stream
holds fails in the negotiator: no output, connection closed. -/
theorem serveConn_greetShort (w : World) (n : Nat) (rest : List Nat) (tr : List Ev)
    (rm : Option (List Nat × Nat)) (wf : List Bool) (cl : Bool) (h : rest.length < n) :
    serveConn w ⟨socks5Version :: n :: rest, tr, rm, wf, cl⟩ =
      (.error .ioErr, ⟨[], tr, rm, wf, true⟩) := by
  simp [serveConn, serveConnBody, readByte, needNoAuth_errShort n rest tr rm wf cl h]

/-- A session whose negotiator write fails aborts with an I/O error:
no output, connection closed. -/
theorem serveConn_writeFail (w : World) (n : Nat) (ms rest : List Nat) (tr : List Ev)
    (rm : Option (List Nat × Nat)) (wf : List Bool) (cl : Bool)
    (hms : ms.length = n) (hw : firstWriteOk wf = false) :
    serveConn w ⟨socks5Version :: n :: (ms ++ rest), tr, rm, wf, cl⟩ =
      (.error .ioErr, ⟨rest, tr, rm, wf.tail, true⟩) := by
  simp [serveConn, serveConnBody, readByte,
    needNoAuth_errWrite n ms rest tr rm wf cl hms hw]

/-- After a successful handshake, a request-decode failure other than
the unrecognized-address-type sentinel is reported as a failed session
with nothing written beyond the handshake response. -/
theorem serveConn_decodeErr (w : World) (n : Nat) (ms reqb : List Nat) (tr : List Ev)
    (rm : Option (List Nat × Nat)) (wf : List Bool) (cl : Bool) (e : GoErr)
    (hms : ms.length = n) (hw : firstWriteOk wf = true)
    (hpr : parseRequest reqb = .error e) (hne : e ≠ .unrecognizedAddrType) :
    serveConn w ⟨socks5Version :: n :: (ms ++ reqb), tr, rm, wf, cl⟩ =
      (.error (.failedToReadDest e),
       ⟨[], tr ++ [.write [socks5Version, noAuth]], rm, wf.tail, true⟩) := by
  simp [serveConn, serveConnBody, readByte,
    needNoAuth_ok n ms reqb tr rm wf cl hms hw, NewRequest, hpr, hne]

/-- After a successful handshake, an unrecognized-address-type decode
failure sends the address-type-not-supported reply (when the write
succeeds) and still reports the session as failed with the decode
error. -/
theorem serveConn_unrecReplyOk (w : World) (n : Nat) (ms reqb : List Nat) (tr : List Ev)
    (rm : Option (List Nat × Nat)) (wf : List Bool) (cl : Bool)
    (hms : ms.length = n) (hw1 : firstWriteOk wf = true)
    (hpr : parseRequest reqb = .error .unrecognizedAddrType)
    (hw2 : firstWriteOk wf.tail = true) :
    serveConn w ⟨socks5Version :: n :: (ms ++ reqb), tr, rm, wf, cl⟩ =
      (.error (.failedToReadDest .unrecognizedAddrType),
       ⟨[], tr ++ [.write [socks5Version, noAuth],
                   .reply addrTypeNotSupported (replyBytes addrTypeNotSupported none)],
        rm, wf.tail.tail, true⟩) := by
  simp [serveConn, serveConnBody, readByte,
    needNoAuth_ok n ms reqb tr rm wf cl hms hw1, NewRequest, hpr,
    sendReply, doWrite, hw2]

/-- After a successful handshake, an unrecognized-address-type decode
failure whose reply write itself fails reports the reply-write failure
(wrapping the write error, not the decode error) with nothing written
beyond the handshake response. -/
theorem serveConn_unrecReplyFail (w : World) (n : Nat) (ms reqb : List Nat) (tr : List Ev)
    (rm : Option (List Nat × Nat)) (wf : List Bool) (cl : Bool)
    (hms : ms.length = n) (hw1 : firstWriteOk wf = true)
    (hpr : parseRequest reqb = .error .unrecognizedAddrType)
    (hw2 : firstWriteOk wf.tail = false) :
    serveConn w ⟨socks5Version :: n :: (ms ++ reqb), tr, rm, wf, cl⟩ =
      (.error (.failedToSendReply .ioErr),
       ⟨[], tr ++ [.write [socks5Version, noAuth]], rm, wf.tail.tail, true⟩) := by
  simp [serveConn, serveConnBody, readByte,
    needNoAuth_ok n ms reqb tr rm wf cl hms hw1, NewRequest, hpr,
    sendReply, doWrite, hw2]

/-- After a successful handshake and a successful request decode,
when the request handler fails, ServeConn returns its error wrapped,
with the handler's final connection state (closed). -/
theorem serveConn_decodeOk_err (w : World) (n : Nat) (ms reqb : List Nat) (tr : List Ev)
    (rm : Option (List Nat × Nat)) (wf : List Bool) (cl : Bool)
    (req : Request) (rest : List Nat) (e : GoErr) (c4 : ConnState)
    (hms : ms.length = n) (hw : firstWriteOk wf = true)
    (hpr : parseRequest reqb = .ok (req, rest))
    (hH : handleRequest w (attachRemote rm req)
        ⟨rest, tr ++ [.write [socks5Version, noAuth]], rm, wf.tail, cl⟩ = (.error e, c4)) :
    serveConn w ⟨socks5Version :: n :: (ms ++ reqb), tr, rm, wf, cl⟩ =
      (.error (.failedToHandleRequest e), { c4 with closed := true }) := by
  simp [serveConn, serveConnBody, readByte,
    needNoAuth_ok n ms reqb tr rm wf cl hms hw, NewRequest, hpr, hH]

/-- After a successful handshake and a successful request decode, when
the request handler succeeds, ServeConn returns nil with the handler's
final connection state (closed). -/
theorem serveConn_decodeOk_ok (w : World) (n : Nat) (ms reqb : List Nat) (tr : List Ev)
    (rm : Option (List Nat × Nat)) (wf : List Bool) (cl : Bool)
    (req : Request) (rest : List Nat) (u : Unit) (c4 : ConnState)
    (hms : ms.length = n) (hw : firstWriteOk wf = true)
    (hpr : parseRequest reqb = .ok (req, rest))
    (hH : handleRequest w (attachRemote rm req)
        ⟨rest, tr ++ [.write [socks5Version, noAuth]], rm, wf.tail, cl⟩ = (.ok u, c4)) :
    serveConn w ⟨socks5Version :: n :: (ms ++ reqb), tr, rm, wf, cl⟩ =
      (.ok (), { c4 with closed := true }) := by
  simp [serveConn, serveConnBody, readByte,
    needNoAuth_ok n ms reqb tr rm wf cl hms hw, NewRequest, hpr, hH]

/-- CONNECT with a successful dial and a working write: one success
reply, then the relay events, in that order. -/
theorem handleRequest_connectOk (bound : AddrSpec) (up : List Nat) (req : Request)
    (inp : List Nat) (tr : List Ev) (rm : Option (List Nat × Nat)) (wf : List Bool) (cl : Bool)
    (hcmd : req.command = connectCommand) (hw : firstWriteOk wf = true) :
    handleRequest ⟨.ok bound, up⟩ req ⟨inp, tr, rm, wf, cl⟩ =
      (.ok (), ⟨[], tr ++ [.handleReq req,
                           .reply successReply (replyBytes successReply (some bound)),
                           .relayToUpstream inp, .relayToClient up],
                rm, wf.tail, cl⟩) := by
  simp [handleRequest, hcmd, sendReply, doWrite, hw]

/-- When the reply write fails, the request handler fails with the
wrapped write error and relays nothing, whatever the command and dial
outcome. -/
theorem handleRequest_replyWriteFail (w : World) (req : Request)
    (inp : List Nat) (tr : List Ev) (rm : Option (List Nat × Nat)) (wf : List Bool) (cl : Bool)
    (hw : firstWriteOk wf = false) :
    handleRequest w req ⟨inp, tr, rm, wf, cl⟩ =
      (.error (.failedToSendReply .ioErr), ⟨inp, tr ++ [.handleReq req], rm, wf.tail, cl⟩) := by
  rcases w with ⟨d, up⟩
  by_cases hcmd : req.command = connectCommand <;>
    cases d <;> simp [handleRequest, hcmd, sendReply, doWrite, hw]

/-- CONNECT with a failed dial and a working write: one classified
failure reply, no relaying, and a failed session. -/
theorem handleRequest_dialFail (d : DialResult) (up : List Nat) (req : Request)
    (inp : List Nat) (tr : List Ev) (rm : Option (List Nat × Nat)) (wf : List Bool) (cl : Bool)
    (hcmd : req.command = connectCommand) (hd : ∀ bound, d ≠ .ok bound)
    (hw : firstWriteOk wf = true) :
    handleRequest ⟨d, up⟩ req ⟨inp, tr, rm, wf, cl⟩ =
      (.error .dialFailure,
       ⟨inp, tr ++ [.handleReq req,
                    .reply (dialErrorCode d) (replyBytes (dialErrorCode d) none)],
        rm, wf.tail, cl⟩) := by
  cases d <;>
    first
    | exact absurd rfl (hd _)
    | simp [handleRequest, hcmd, sendReply, doWrite, hw, dialErrorCode]

/-- A non-CONNECT command with a working write: one
command-not-supported reply, no relaying, and a failed session. -/
theorem handleRequest_notConnect (w : World) (req : Request)
    (inp : List Nat) (tr : List Ev) (rm : Option (List Nat × Nat)) (wf : List Bool) (cl : Bool)
    (hcmd : req.command ≠ connectCommand) (hw : firstWriteOk wf = true) :
    handleRequest w req ⟨inp, tr, rm, wf, cl⟩ =
      (.error .unsupportedCommand,
       ⟨inp, tr ++ [.handleReq req,
                    .reply commandNotSupported (replyBytes commandNotSupported none)],
        rm, wf.tail, cl⟩) := by
  simp [handleRequest, hcmd, sendReply, doWrite, hw]

/-- The trace contribution of the request handler: the hand-off event,
then either nothing (the reply write failed), or exactly one reply, or
a success reply followed by the two relay events. -/
theorem handleRequest_shape (w : World) (req : Request)
    (inp : List Nat) (tr : List Ev) (rm : Option (List Nat × Nat)) (wf : List Bool) (cl : Bool) :
    (handleRequest w req ⟨inp, tr, rm, wf, cl⟩).2.trace = tr ++ [.handleReq req] ∨
    (∃ code bs, (handleRequest w req ⟨inp, tr, rm, wf, cl⟩).2.trace =
        tr ++ [.handleReq req, .reply code bs]) ∨
    (∃ bs u d, (handleRequest w req ⟨inp, tr, rm, wf, cl⟩).2.trace =
        tr ++ [.handleReq req, .reply successReply bs, .relayToUpstream u, .relayToClient d]) := by
  rcases w with ⟨d, up⟩
  by_cases hw : firstWriteOk wf = true
  · by_cases hcmd : req.command = connectCommand
    · cases d with
      | ok bound =>
        right; right
        exact ⟨_, _, _, by rw [handleRequest_connectOk bound up req inp tr rm wf cl hcmd hw]⟩
      | connRefused =>
        right; left
        exact ⟨_, _, by rw [handleRequest_dialFail _ up req inp tr rm wf cl hcmd
          (by intro bound h; cases h) hw]⟩
      | netUnreachable =>
        right; left
        exact ⟨_, _, by rw [handleRequest_dialFail _ up req inp tr rm wf cl hcmd
          (by intro bound h; cases h) hw]⟩
      | hostUnreachable =>
        right; left
        exact ⟨_, _, by rw [handleRequest_dialFail _ up req inp tr rm wf cl hcmd
          (by intro bound h; cases h) hw]⟩
      | otherFailure =>
        right; left
        exact ⟨_, _, by rw [handleRequest_dialFail _ up req inp tr rm wf cl hcmd
          (by intro bound h; cases h) hw]⟩
    · right; left
      exact ⟨_, _, by rw [handleRequest_notConnect ⟨d, up⟩ req inp tr rm wf cl hcmd hw]⟩
  · left
    rw [handleRequest_replyWriteFail ⟨d, up⟩ req inp tr rm wf cl
      (Bool.not_eq_true _ ▸ hw)]

/-- replyCodes skips a raw write event. -/
theorem replyCodes_write (bs : List Nat) (t : List Ev) :
    replyCodes (.write bs :: t) = replyCodes t := rfl

/-- replyCodes skips a hand-off event. -/
theorem replyCodes_handleReq (r : Request) (t : List Ev) :
    replyCodes (.handleReq r :: t) = replyCodes t := rfl

/-- replyCodes records a reply event. -/
theorem replyCodes_reply (code : Nat) (bs : List Nat) (t : List Ev) :
    replyCodes (.reply code bs :: t) = code :: replyCodes t := rfl

/-- replyCodes skips a client-bound relay event. -/
theorem replyCodes_relayToClient (bs : List Nat) (t : List Ev) :
    replyCodes (.relayToClient bs :: t) = replyCodes t := rfl

/-- replyCodes skips an upstream-bound relay event. -/
theorem replyCodes_relayToUpstream (bs : List Nat) (t : List Ev) :
    replyCodes (.relayToUpstream bs :: t) = replyCodes t := rfl

/-- The relay check skips a raw write event. -/
theorem noRelay_write (bs : List Nat) (t : List Ev) :
    noRelayBeforeSuccessReply (.write bs :: t) = noRelayBeforeSuccessReply t := rfl

/-- The relay check skips a hand-off event. -/
theorem noRelay_handleReq (r : Request) (t : List Ev) :
    noRelayBeforeSuccessReply (.handleReq r :: t) = noRelayBeforeSuccessReply t := rfl

/-- The relay check accepts everything after a success reply, and
continues past any other reply. -/
theorem noRelay_reply (code : Nat) (bs : List Nat) (t : List Ev) :
    noRelayBeforeSuccessReply (.reply code bs :: t) =
      (if code = 0 then true else noRelayBeforeSuccessReply t) := by
  rcases code with _ | m <;> rfl

/-- handledRequests skips a raw write event. -/
theorem handledRequests_write (bs : List Nat) (t : List Ev) :
    handledRequests (.write bs :: t) = handledRequests t := rfl

/-- handledRequests skips a reply event. -/
theorem handledRequests_reply (code : Nat) (bs : List Nat) (t : List Ev) :
    handledRequests (.reply code bs :: t) = handledRequests t := rfl

/-- handledRequests skips a client-bound relay event. -/
theorem handledRequests_relayToClient (bs : List Nat) (t : List Ev) :
    handledRequests (.relayToClient bs :: t) = handledRequests t := rfl

/-- handledRequests skips an upstream-bound relay event. -/
theorem handledRequests_relayToUpstream (bs : List Nat) (t : List Ev) :
    handledRequests (.relayToUpstream bs :: t) = handledRequests t := rfl

/-- handledRequests records a hand-off event. -/
theorem handledRequests_handleReq (r : Request) (t : List Ev) :
    handledRequests (.handleReq r :: t) = r :: handledRequests t := rfl

/-- Claim C2: for every greeting with any NMETHODS and any method byte
values, the negotiator writes exactly the two bytes [0x05, 0x00] to the
client (one write event, with exactly those bytes) and reads no more
than NMETHODS method bytes (the stream past the NMETHODS method bytes
is untouched). -/
theorem c2_negotiatorResponse (n : Nat) (ms rest : List Nat) (tr : List Ev)
    (rm : Option (List Nat × Nat)) (wf : List Bool) (cl : Bool)
    (hms : ms.length = n) (hw : firstWriteOk wf = true) :
    needNoAuth ⟨n :: (ms ++ rest), tr, rm, wf, cl⟩ =
      (.ok (), ⟨rest, tr ++ [.write [5, 0]], rm, wf.tail, cl⟩) :=
  needNoAuth_ok n ms rest tr rm wf cl hms hw

/-- Witness for C2: a greeting with NMETHODS = 2 and two method bytes. -/
theorem c2_witness :
    needNoAuth ⟨[2, 0, 1, 9, 9], [], none, [], false⟩ =
      (.ok (), ⟨[9, 9], [.write [5, 0]], none, [], false⟩) :=
  c2_negotiatorResponse 2 [0, 1] [9, 9] [] none [] false rfl rfl

/-- Claim C4: for every input stream whose first byte is not 0x05,
ServeConn fails the session with an unsupported-version error and
closes the connection having written nothing at all to the client. -/
theorem c4_badVersionNoReply (w : World) (v : Nat) (rest : List Nat)
    (rm : Option (List Nat × Nat)) (wf : List Bool) (h : v ≠ socks5Version) :
    serveConn w ⟨v :: rest, [], rm, wf, false⟩ =
      (.error (.unsupportedVersion v), ⟨rest, [], rm, wf, true⟩) :=
  serveConn_badVersion w v rest [] rm wf false h

/-- Witness for C4: a client opening with version byte 4. -/
theorem c4_witness :
    serveConn ⟨.connRefused, []⟩ ⟨[4, 1, 0], [], none, [], false⟩ =
      (.error (.unsupportedVersion 4), ⟨[1, 0], [], none, [], true⟩) :=
  c4_badVersionNoReply ⟨.connRefused, []⟩ 4 [1, 0] none [] (by decide)

/-- Claim C5: for every request-decode failure other than
unrecognizedAddrType, ServeConn returns an error and closes the
connection with nothing written beyond the handshake response — in
particular no Reply message. -/
theorem c5_decodeFailNoReply (w : World) (rm : Option (List Nat × Nat))
    (n : Nat) (ms reqb : List Nat) (e : GoErr) (hms : ms.length = n)
    (hpr : parseRequest reqb = .error e) (hne : e ≠ .unrecognizedAddrType) :
    serveConn w ⟨socks5Version :: n :: (ms ++ reqb), [], rm, [], false⟩ =
      (.error (.failedToReadDest e), ⟨[], [.write [5, 0]], rm, [], true⟩) ∧
    replyCodes [.write [5, 0]] = [] := by
  refine ⟨?_, rfl⟩
  simpa using serveConn_decodeErr w n ms reqb [] rm [] false e hms rfl hpr hne

/-- Witness for C5: the stream ends right after the handshake, so the
request decode fails with an I/O error and no reply is sent. -/
theorem c5_witness :
    serveConn ⟨.connRefused, []⟩ ⟨[5, 1, 0], [], none, [], false⟩ =
      (.error (.failedToReadDest .ioErr), ⟨[], [.write [5, 0]], none, [], true⟩) :=
  (c5_decodeFailNoReply ⟨.connRefused, []⟩ none 1 [0] [] .ioErr rfl rfl (by decide)).1

/-- Claim C6: on every exit path of ServeConn the client connection is
closed before ServeConn returns (the deferred Close). -/
theorem c6_alwaysCloses (w : World) (c : ConnState) :
    (serveConn w c).2.closed = true := rfl

/-- Claim C7: needNoAuth performs at most one write to the client
stream, only after successfully reading the method-count byte and all
NMETHODS method bytes; whenever any of those reads fails (empty stream
or short method list) it returns the error having written nothing, and
when the write itself fails nothing is written either. -/
theorem c7_oneWriteAfterReads (c : ConnState) :
    (c.input = [] → needNoAuth c = (.error .ioErr, c)) ∧
    (∀ n rest, c.input = n :: rest → rest.length < n →
      needNoAuth c = (.error .ioErr, { c with input := [] })) ∧
    (∀ n rest, c.input = n :: rest → n ≤ rest.length →
        firstWriteOk c.writeFails = false →
      needNoAuth c = (.error .ioErr,
        { c with input := rest.drop n, writeFails := c.writeFails.tail })) ∧
    (∀ n rest, c.input = n :: rest → n ≤ rest.length →
        firstWriteOk c.writeFails = true →
      needNoAuth c = (.ok (),
        { c with input := rest.drop n, writeFails := c.writeFails.tail,
                 trace := c.trace ++ [.write [5, 0]] })) := by
  obtain ⟨inp, tr, rm, wf, cl⟩ := c
  refine ⟨?_, ?_, ?_, ?_⟩
  · intro h
    simp only at h
    subst h
    exact needNoAuth_errNil tr rm wf cl
  · intro n rest h hlt
    simp only at h
    subst h
    exact needNoAuth_errShort n rest tr rm wf cl hlt
  · intro n rest h hle hw
    simp only at h
    subst h
    have hms : (rest.take n).length = n := by
      simpa using Nat.min_eq_left hle
    conv_lhs => rw [← List.take_append_drop n rest]
    exact needNoAuth_errWrite n (rest.take n) (rest.drop n) tr rm wf cl hms hw
  · intro n rest h hle hw
    simp only at h
    subst h
    have hms : (rest.take n).length = n := by
      simpa using Nat.min_eq_left hle
    conv_lhs => rw [← List.take_append_drop n rest]
    exact needNoAuth_ok n (rest.take n) (rest.drop n) tr rm wf cl hms hw

/-- Witness for C7: a short method list aborts with nothing written,
and a failing write call also leaves nothing written. -/
theorem c7_witness :
    needNoAuth ⟨[3, 1], [], none, [], false⟩ = (.error .ioErr, ⟨[], [], none, [], false⟩) ∧
    needNoAuth ⟨[1, 0], [], none, [true], false⟩ =
      (.error .ioErr, ⟨[], [], none, [], false⟩) :=
  ⟨(c7_oneWriteAfterReads ⟨[3, 1], [], none, [], false⟩).2.1 3 [1] rfl (by decide),
   (c7_oneWriteAfterReads ⟨[1, 0], [], none, [true], false⟩).2.2.1 1 [0] rfl
     (by decide) rfl⟩

/-- Claim C9: for every Config, New returns a server and a nil error;
the server's config aliases the caller's Config after the in-place
mutation, which installs the default stdout logger exactly when the
caller's logger was nil and otherwise leaves the Config unchanged. -/
theorem c9_newServer (conf : Config) :
    New conf = ({ config := { conf with logger := some (conf.logger.getD .stdoutDefault) } },
                { conf with logger := some (conf.logger.getD .stdoutDefault) }, none) := by
  obtain ⟨bip, lg⟩ := conf
  cases lg <;> simp [New, Option.getD]

/-- Claim C10: when the request decode fails with unrecognizedAddrType,
ServeConn returns a non-nil error even when the
address-type-not-supported reply is written successfully; and when that
reply write fails, the returned error wraps the write failure instead
of the decode failure. -/
theorem c10_unrecErrorReporting (w : World) (rm : Option (List Nat × Nat))
    (n : Nat) (ms reqb : List Nat) (hms : ms.length = n)
    (hpr : parseRequest reqb = .error .unrecognizedAddrType) :
    (serveConn w ⟨socks5Version :: n :: (ms ++ reqb), [], rm, [], false⟩).1 =
      .error (.failedToReadDest .unrecognizedAddrType) ∧
    (serveConn w ⟨socks5Version :: n :: (ms ++ reqb), [], rm, [false, true], false⟩).1 =
      .error (.failedToSendReply .ioErr) := by
  constructor
  · rw [serveConn_unrecReplyOk w n ms reqb [] rm [] false hms rfl hpr rfl]
  · rw [serveConn_unrecReplyFail w n ms reqb [] rm [false, true] false hms rfl hpr rfl]

/-- Witness for C10: a request with address-type byte 2, with all
writes succeeding and with the reply write failing. -/
theorem c10_witness :
    (serveConn ⟨.connRefused, []⟩ ⟨[5, 1, 0, 5, 1, 0, 2], [], none, [], false⟩).1 =
      .error (.failedToReadDest .unrecognizedAddrType) ∧
    (serveConn ⟨.connRefused, []⟩ ⟨[5, 1, 0, 5, 1, 0, 2], [], none, [false, true], false⟩).1 =
      .error (.failedToSendReply .ioErr) :=
  c10_unrecErrorReporting ⟨.connRefused, []⟩ none 1 [0] [5, 1, 0, 2] rfl rfl

/-- Claim C3: every request whose address-type byte is not in
{1, 3, 4} (and that is well-formed up to that byte) fails to decode
with unrecognizedAddrType; ServeConn then sends the
address-type-not-supported reply (code 0x08), closes the connection,
relays nothing, and no other decode-failure class produces a reply. -/
theorem c3_addrTypeNotSupported (w : World) (rm : Option (List Nat × Nat))
    (n : Nat) (ms : List Nat) (cmd rsv atyp : Nat) (rest : List Nat)
    (hms : ms.length = n)
    (hcmd : cmd = 1 ∨ cmd = 2 ∨ cmd = 3)
    (hatyp : ¬(atyp = 1 ∨ atyp = 3 ∨ atyp = 4)) :
    parseRequest (socks5Version :: cmd :: rsv :: atyp :: rest) =
      .error .unrecognizedAddrType ∧
    serveConn w ⟨socks5Version :: n ::
        (ms ++ (socks5Version :: cmd :: rsv :: atyp :: rest)), [], rm, [], false⟩ =
      (.error (.failedToReadDest .unrecognizedAddrType),
       ⟨[], [.write [5, 0],
             .reply addrTypeNotSupported (replyBytes addrTypeNotSupported none)],
        rm, [], true⟩) ∧
    relayedBytes [.write [5, 0],
        .reply addrTypeNotSupported (replyBytes addrTypeNotSupported none)] = [] ∧
    (∀ (reqb : List Nat) (e : GoErr), parseRequest reqb = .error e →
      e ≠ .unrecognizedAddrType →
      replyCodes (serveConn w
        ⟨socks5Version :: n :: (ms ++ reqb), [], rm, [], false⟩).2.trace = []) := by
  push_neg at hatyp
  obtain ⟨h1, h3, h4⟩ := hatyp
  have hp : parseRequest (socks5Version :: cmd :: rsv :: atyp :: rest) =
      .error .unrecognizedAddrType := by
    simp [parseRequest, parseAddrSpec, hcmd, h1, h3, h4]
  refine ⟨hp, ?_, rfl, ?_⟩
  · simpa using serveConn_unrecReplyOk w n ms _ [] rm [] false hms rfl hp rfl
  · intro reqb e hpr hne
    rw [serveConn_decodeErr w n ms reqb [] rm [] false e hms rfl hpr hne]
    rfl

/-- Witness for C3: a CONNECT request with address-type byte 2. -/
theorem c3_witness :
    parseRequest [5, 1, 0, 2] = .error .unrecognizedAddrType ∧
    serveConn ⟨.connRefused, []⟩ ⟨[5, 1, 0, 5, 1, 0, 2], [], none, [], false⟩ =
      (.error (.failedToReadDest .unrecognizedAddrType),
       ⟨[], [.write [5, 0], .reply 8 (replyBytes 8 none)], none, [], true⟩) :=
  ⟨(c3_addrTypeNotSupported ⟨.connRefused, []⟩ none 1 [0] 1 0 2 [] rfl
      (Or.inl rfl) (by decide)).1,
   (c3_addrTypeNotSupported ⟨.connRefused, []⟩ none 1 [0] 1 0 2 [] rfl
      (Or.inl rfl) (by decide)).2.1⟩

/-- Claim C8 is refuted at this input: the connection's remote address
is not a TCP address (in the code the type assertion to a TCPAddr
fails), so the successfully decoded request is handed to request
handling with RemoteAddr still unset, and no remote address is
attached. -/
theorem c8_counterexample :
    handledRequests (serveConn ⟨.connRefused, []⟩
        ⟨[5, 1, 0, 5, 1, 0, 1, 127, 0, 0, 1, 0, 80], [], none, [], false⟩).2.trace =
      [{ version := 5, command := 1,
         destAddr := { ip := [127, 0, 0, 1], fqdn := [], port := 80 },
         remoteAddr := none }] := by
  rfl

/-- Claim C8 (amended): for every successfully decoded request, when
the connection's remote address is a TCP address, ServeConn attaches
its IP and port to Request.RemoteAddr before handing the request to
request handling. -/
theorem c8_attachRemote (w : World) (ip : List Nat) (p : Nat)
    (n : Nat) (ms reqb : List Nat) (req : Request) (rest : List Nat)
    (hms : ms.length = n) (hpr : parseRequest reqb = .ok (req, rest)) :
    handledRequests (serveConn w
        ⟨socks5Version :: n :: (ms ++ reqb), [], some (ip, p), [], false⟩).2.trace =
      [{ req with remoteAddr := some { ip := ip, fqdn := [], port := p } }] := by
  have hsh := handleRequest_shape w (attachRemote (some (ip, p)) req) rest
      [.write [socks5Version, noAuth]] (some (ip, p)) [] false
  rcases hH : handleRequest w (attachRemote (some (ip, p)) req)
      ⟨rest, [.write [socks5Version, noAuth]], some (ip, p), [], false⟩ with ⟨r4, c4⟩
  rw [hH] at hsh
  dsimp only at hsh
  cases r4 with
  | error e =>
    rw [serveConn_decodeOk_err w n ms reqb [] (some (ip, p)) [] false req rest e c4
      hms rfl hpr hH]
    dsimp only
    rcases hsh with h3 | ⟨code, bs, h3⟩ | ⟨bs, u2, d2, h3⟩ <;>
      simp [h3, handledRequests_write, handledRequests_handleReq, handledRequests_reply,
        handledRequests_relayToClient, handledRequests_relayToUpstream, handledRequests,
        attachRemote]
  | ok u =>
    rw [serveConn_decodeOk_ok w n ms reqb [] (some (ip, p)) [] false req rest u c4
      hms rfl hpr hH]
    dsimp only
    rcases hsh with h3 | ⟨code, bs, h3⟩ | ⟨bs, u2, d2, h3⟩ <;>
      simp [h3, handledRequests_write, handledRequests_handleReq, handledRequests_reply,
        handledRequests_relayToClient, handledRequests_relayToUpstream, handledRequests,
        attachRemote]

/-- Witness for C8 (amended): a TCP client at 9.8.7.6:1234 sending a
CONNECT request; the handled request carries that remote address. -/
theorem c8_witness :
    handledRequests (serveConn ⟨.connRefused, []⟩
        ⟨[5, 1, 0, 5, 1, 0, 1, 127, 0, 0, 1, 0, 80], [],
         some ([9, 8, 7, 6], 1234), [], false⟩).2.trace =
      [{ version := 5, command := 1,
         destAddr := { ip := [127, 0, 0, 1], fqdn := [], port := 80 },
         remoteAddr := some { ip := [9, 8, 7, 6], fqdn := [], port := 1234 } }] :=
  c8_attachRemote ⟨.connRefused, []⟩ [9, 8, 7, 6] 1234 1 [0]
    [5, 1, 0, 1, 127, 0, 0, 1, 0, 80]
    { version := 5, command := 1,
      destAddr := { ip := [127, 0, 0, 1], fqdn := [], port := 80 },
      remoteAddr := none }
    [] rfl rfl

/-- Claim C1 is refuted at this input: the client sends a complete
greeting and then closes, so the handshake succeeds (the method
selection is written) yet no Reply message is ever sent — the
"reply if and only if handshake succeeded / exactly one reply per
session" invariant fails in the if direction. -/
theorem c1_counterexample :
    handshakeOk ⟨[5, 1, 0], [], none, [], false⟩ = true ∧
    replyCodes (serveConn ⟨.connRefused, []⟩
      ⟨[5, 1, 0], [], none, [], false⟩).2.trace = [] := by
  constructor <;> rfl

/-- Claim C1 (amended): for every session (any input, remote address,
write-failure schedule), a Reply is sent only if the handshake
succeeded, at most one Reply is sent per session, and no bytes are
relayed before a success Reply is sent. -/
theorem c1_replyInvariant (w : World) (inp : List Nat)
    (rm : Option (List Nat × Nat)) (wf : List Bool) (cl : Bool) :
    (replyCodes (serveConn w ⟨inp, [], rm, wf, cl⟩).2.trace ≠ [] →
      handshakeOk ⟨inp, [], rm, wf, cl⟩ = true) ∧
    (replyCodes (serveConn w ⟨inp, [], rm, wf, cl⟩).2.trace).length ≤ 1 ∧
    noRelayBeforeSuccessReply (serveConn w ⟨inp, [], rm, wf, cl⟩).2.trace = true := by
  rcases inp with _ | ⟨v, rest⟩
  · rw [serveConn_nilInput w [] rm wf cl]
    simp [replyCodes, noRelayBeforeSuccessReply]
  · by_cases hv : v = socks5Version
    · subst hv
      rcases rest with _ | ⟨n, rest2⟩
      · rw [serveConn_greetNil w [] rm wf cl]
        simp [replyCodes, noRelayBeforeSuccessReply]
      · by_cases hn : n ≤ rest2.length
        · have hms : (rest2.take n).length = n := by
            simpa using Nat.min_eq_left hn
          rw [← List.take_append_drop n rest2]
          by_cases hw : firstWriteOk wf = true
          · have hhs : handshakeOk ⟨socks5Version :: n ::
                (rest2.take n ++ rest2.drop n), [], rm, wf, cl⟩ = true := by
              simp [handshakeOk, hw, List.take_append_drop, hn]
            rcases hpr : parseRequest (rest2.drop n) with e | ⟨req, rest3⟩
            · by_cases he : e = GoErr.unrecognizedAddrType
              · subst he
                by_cases hw2 : firstWriteOk wf.tail = true
                · rw [serveConn_unrecReplyOk w n _ _ [] rm wf cl hms hw hpr hw2]
                  exact ⟨fun _ => hhs, by dsimp only; decide, by dsimp only; decide⟩
                · rw [serveConn_unrecReplyFail w n _ _ [] rm wf cl hms hw hpr
                    (by simpa using hw2)]
                  exact ⟨fun _ => hhs, by dsimp only; decide, by dsimp only; decide⟩
              · rw [serveConn_decodeErr w n _ _ [] rm wf cl e hms hw hpr he]
                exact ⟨fun _ => hhs, by dsimp only; decide, by dsimp only; decide⟩
            · have hsh := handleRequest_shape w (attachRemote rm req) rest3
                [.write [socks5Version, noAuth]] rm wf.tail cl
              rcases hH : handleRequest w (attachRemote rm req)
                  ⟨rest3, [.write [socks5Version, noAuth]], rm, wf.tail, cl⟩ with ⟨r4, c4⟩
              rw [hH] at hsh
              dsimp only at hsh
              have hmain : (replyCodes c4.trace).length ≤ 1 ∧
                  noRelayBeforeSuccessReply c4.trace = true := by
                rcases hsh with h3 | ⟨code, bs, h3⟩ | ⟨bs, u2, d2, h3⟩ <;>
                  rw [h3] <;>
                  simp [replyCodes_write, replyCodes_handleReq, replyCodes_reply,
                    replyCodes_relayToClient, replyCodes_relayToUpstream, replyCodes,
                    noRelay_write, noRelay_handleReq, noRelay_reply,
                    noRelayBeforeSuccessReply, successReply]
              cases r4 with
              | error e2 =>
                rw [serveConn_decodeOk_err w n _ _ [] rm wf cl req rest3 e2 c4
                  hms hw hpr hH]
                exact ⟨fun _ => hhs, hmain.1, hmain.2⟩
              | ok u =>
                rw [serveConn_decodeOk_ok w n _ _ [] rm wf cl req rest3 u c4
                  hms hw hpr hH]
                exact ⟨fun _ => hhs, hmain.1, hmain.2⟩
          · rw [serveConn_writeFail w n _ _ [] rm wf cl hms (by simpa using hw)]
            simp [replyCodes, noRelayBeforeSuccessReply]
        · rw [serveConn_greetShort w n rest2 [] rm wf cl (by omega)]
          simp [replyCodes, noRelayBeforeSuccessReply]
    · rw [serveConn_badVersion w v rest [] rm wf cl hv]
      simp [replyCodes, noRelayBeforeSuccessReply]

/-- Witness for C1 (amended): a complete successful session — CONNECT
to 127.0.0.1:80 with a successful dial — satisfies the invariant. -/
theorem c1_witness :
    (replyCodes (serveConn ⟨.ok { ip := [10, 0, 0, 1], fqdn := [], port := 8080 }, [7]⟩
      ⟨[5, 1, 0, 5, 1, 0, 1, 127, 0, 0, 1, 0, 80, 9], [], none, [], false⟩).2.trace).length ≤ 1 ∧
    noRelayBeforeSuccessReply (serveConn ⟨.ok { ip := [10, 0, 0, 1], fqdn := [], port := 8080 }, [7]⟩
      ⟨[5, 1, 0, 5, 1, 0, 1, 127, 0, 0, 1, 0, 80, 9], [], none, [], false⟩).2.trace = true :=
  ⟨(c1_replyInvariant ⟨.ok { ip := [10, 0, 0, 1], fqdn := [], port := 8080 }, [7]⟩
      [5, 1, 0, 5, 1, 0, 1, 127, 0, 0, 1, 0, 80, 9] none [] false).2.1,
   (c1_replyInvariant ⟨.ok { ip := [10, 0, 0, 1], fqdn := [], port := 8080 }, [7]⟩
      [5, 1, 0, 5, 1, 0, 1, 127, 0, 0, 1, 0, 80, 9] none [] false).2.2⟩

end MySocks
